import Mathlib

/-!
Verification development for the rendering core of the `clogs` repository
(`src/render.rs`).  The Rust code is shallowly embedded: `f32` scalars are
modelled as exact rationals (`ℚ`), Rust `Vec`s as Lean `List`s, fallible or
panicking operations as `Option`/`Except`/dedicated result types, and GPU
buffer objects by the data that was uploaded into them.  The external lyon
tessellator is abstracted by its outcome (an optional vertex/index pair);
everything else is translated directly from `render.rs`.
-/

namespace Clogs

/-- Fixed capacity (in instances) of the per-mesh streaming instance buffer,
`MAX_MESH_INSTANCES` in render.rs: `1024 * 1024`. -/
def MAX_MESH_INSTANCES : Nat := 1024 * 1024

/-- Per-vertex data (`Vertex` in render.rs): position `[f32; 2]` and colour
`[f32; 4]`, with `f32` modelled as `ℚ`. -/
structure Vertex where
  pos : ℚ × ℚ
  color : ℚ × ℚ × ℚ × ℚ
deriving DecidableEq

/-- Instance of a mesh (`Instance` in render.rs): `position : [f32; 3]`
modelled as a triple (components `0`, `1`, `2` of the array are `.1`,
`.2.1`, `.2.2`), plus rotation, scale, colour multiplier `[f32; 3]` and
alpha. -/
structure Instance where
  position : ℚ × ℚ × ℚ
  rotation : ℚ
  scale : ℚ
  color : ℚ × ℚ × ℚ
  alpha : ℚ
deriving DecidableEq

/-- Rust saturating cast of an `f32` to `u8` (the `as u8` in
`Instance::z`): truncate toward zero and clamp into `[0, 255]`. -/
def f32ToU8 (q : ℚ) : Nat := min 255 (Int.toNat ⌊q⌋)

/-- Constructor `Instance::new(x, y)`: position `[x, y, 0]`, rotation `0`,
scale `1`, colour multiplier white, alpha `1`. -/
def Instance.new (x y : ℚ) : Instance :=
  { position := (x, y, 0), rotation := 0, scale := 1, color := (1, 1, 1), alpha := 1 }

/-- Setter `Instance::set_x`: writes `position[0]`. -/
def Instance.set_x (s : Instance) (new : ℚ) : Instance :=
  { s with position := (new, s.position.2.1, s.position.2.2) }

/-- Getter `Instance::x`. -/
def Instance.x (s : Instance) : ℚ := s.position.1

/-- Setter `Instance::set_y`: writes `position[1]`. -/
def Instance.set_y (s : Instance) (new : ℚ) : Instance :=
  { s with position := (s.position.1, new, s.position.2.2) }

/-- Getter `Instance::y`. -/
def Instance.y (s : Instance) : ℚ := s.position.2.1

/-- Setter `Instance::set_z`: stores `(u8::MAX - new) as f32 / 255.0` into
`position[2]`.  The `u8` argument is modelled as a `Nat` (callers supply a
value `≤ 255`); `u8` subtraction at in-range inputs agrees with truncated
`Nat` subtraction. -/
def Instance.set_z (s : Instance) (new : Nat) : Instance :=
  { s with position := (s.position.1, s.position.2.1, ((255 - new : Nat) : ℚ) / 255) }

/-- Getter `Instance::z`: `u8::MAX - (position[2] * 255.0) as u8`. -/
def Instance.z (s : Instance) : Nat := 255 - f32ToU8 (s.position.2.2 * 255)

/-- Setter `Instance::set_scale`. -/
def Instance.set_scale (s : Instance) (scale : ℚ) : Instance := { s with scale := scale }

/-- Setter `Instance::set_rotation`. -/
def Instance.set_rotation (s : Instance) (rotation : ℚ) : Instance := { s with rotation := rotation }

/-- Setter `Instance::set_color_multiplier`. -/
def Instance.set_color_multiplier (s : Instance) (r g b : ℚ) : Instance :=
  { s with color := (r, g, b) }

/-- Getter `Instance::color_multiplier`. -/
def Instance.color_multiplier (s : Instance) : ℚ × ℚ × ℚ := s.color

theorem f32ToU8_natCast (n : Nat) : f32ToU8 (n : ℚ) = min 255 n := by
  simp [f32ToU8]

/-- The depth transform of `set_z` is inverted exactly by `z` for every
in-range input. -/
theorem Instance.z_set_z (s : Instance) (v : Nat) (h : v ≤ 255) : (s.set_z v).z = v := by
  have h255 : (255 : ℚ) ≠ 0 := by norm_num
  have : ((255 - v : Nat) : ℚ) / 255 * 255 = ((255 - v : Nat) : ℚ) :=
    div_mul_cancel₀ _ h255
  simp only [Instance.set_z, Instance.z, this, f32ToU8_natCast]
  omega

/-- C4: for every `u8` value `v`, `set_z v` stores `(255 - v)/255` in the
instance's third position coordinate, and `z` inverts this transform, so
`set_z v` immediately followed by `z` returns exactly `v`. -/
theorem set_z_stores_depth_and_z_inverts (s : Instance) (v : Nat) (h : v ≤ 255) :
    (s.set_z v).position.2.2 = ((255 : ℚ) - v) / 255 ∧ (s.set_z v).z = v := by
  constructor
  · simp only [Instance.set_z]
    rw [Nat.cast_sub h]
    norm_num
  · exact Instance.z_set_z s v h

/-- Witness for C4, at the concrete instance `Instance.new 0 0` and
input `7`. -/
theorem set_z_stores_depth_and_z_inverts_at_seven :
    ((Instance.new 0 0).set_z 7).position.2.2 = ((255 : ℚ) - 7) / 255 ∧
      ((Instance.new 0 0).set_z 7).z = 7 :=
  set_z_stores_depth_and_z_inverts (Instance.new 0 0) 7 (by decide)

/-- GPU bindings of one draw call (`Bindings` built by
`DrawCall::create_bindings`), modelled by the data uploaded into the three
buffers: the immutable vertex buffer, the immutable index buffer, and the
streaming instance buffer (its allocation size in instances, and its current
contents, written by `update` during `Render::render`). -/
structure Bindings where
  vertex_buffer : List Vertex
  index_buffer : List Nat
  instance_buffer_size : Nat
  instance_data : List Instance
deriving DecidableEq

/-- Registry entry `DrawCall` from render.rs: CPU-side vertices and indices,
lazily created GPU bindings, the instance list, and the dirty flag
`refresh_instances`. -/
structure DrawCall where
  vertices : List Vertex
  indices : List Nat
  bindings : Option Bindings
  instances : List Instance
  refresh_instances : Bool
deriving DecidableEq

/-- The `usize` newtype handle `Mesh` returned by the upload functions. -/
structure Mesh where
  idx : Nat
deriving DecidableEq

/-- The registry state of `Render` from render.rs.  The GPU `pipeline`
handle carries no state observable by the claims and is omitted; the
remaining fields are translated directly. -/
structure Render where
  draw_calls : List DrawCall
  missing_bindings : Bool
  camera_pan : ℚ × ℚ
  camera_zoom : ℚ
deriving DecidableEq

/-- Constructor `Render::new`: empty registry, `missing_bindings = false`, pan `(0,0)`,
zoom `1` (the shader/pipeline construction has no registry-visible effect). -/
def Render.new : Render :=
  { draw_calls := [], missing_bindings := false, camera_pan := (0, 0), camera_zoom := 1 }

/-- Outcome of `Render::upload_path`.  The Rust function returns a bare
`Mesh`; the only abnormal exit is the `.unwrap()` on the tessellation
result, which panics (aborting), modelled by `fatalPanic`.  There is no
error-return constructor because the source has no error path. -/
inductive UploadPathResult where
  | ok (r : Render) (m : Mesh)
  | fatalPanic
deriving DecidableEq

/-- Upload entry point `Render::upload_path`.  The external lyon `FillTessellator` is
abstracted by its outcome `tess`: `some (vertices, indices)` when
tessellation succeeds, `none` when it fails (in the source, a failure makes
the `.unwrap()` at the tessellation call panic).  On success the function
pushes a fresh `DrawCall`, sets `missing_bindings`, and returns
`Mesh(len - 1)`. -/
def Render.upload_path (r : Render) (tess : Option (List Vertex × List Nat)) :
    UploadPathResult :=
  match tess with
  | none => UploadPathResult.fatalPanic
  | some g =>
    let draw_call : DrawCall :=
      { vertices := g.1, indices := g.2, bindings := none, instances := [],
        refresh_instances := false }
    let draw_calls := r.draw_calls ++ [draw_call]
    UploadPathResult.ok { r with draw_calls := draw_calls, missing_bindings := true }
      ⟨draw_calls.length - 1⟩

/-- Upload entry point `Render::upload_buffers`: clones the given vertex/index buffers into a
fresh `DrawCall`, sets `missing_bindings`, and returns `Ok(Mesh(len - 1))`.
The source performs no validation and its `Result` is always `Ok`. -/
def Render.upload_buffers (r : Render) (geometry : List Vertex × List Nat) :
    Except String (Render × Mesh) :=
  let draw_call : DrawCall :=
    { vertices := geometry.1, indices := geometry.2, bindings := none, instances := [],
      refresh_instances := false }
  let draw_calls := r.draw_calls ++ [draw_call]
  Except.ok ({ r with draw_calls := draw_calls, missing_bindings := true },
    ⟨draw_calls.length - 1⟩)

/-- Binding creation `DrawCall::create_bindings`: immutable vertex and index buffers built
from the entry's data, and a streaming instance buffer sized for
`MAX_MESH_INSTANCES` instances (initially empty). -/
def DrawCall.create_bindings (dc : DrawCall) : DrawCall :=
  { dc with bindings := some (
      { vertex_buffer := dc.vertices, index_buffer := dc.indices,
        instance_buffer_size := MAX_MESH_INSTANCES, instance_data := [] }) }

/-- In-place update of the element at position `i` of a list (the effect of
mutating one element of a Rust `Vec` through an index). -/
def listModify {α : Type} (l : List α) (i : Nat) (f : α → α) : List α :=
  match l, i with
  | [], _ => []
  | a :: as, 0 => f a :: as
  | a :: as, n + 1 => a :: listModify as n f

theorem listModify_getElem?_self {α : Type} (l : List α) (i : Nat) (f : α → α) :
    (listModify l i f)[i]? = (l[i]?).map f := by
  induction l generalizing i with
  | nil => simp [listModify]
  | cons a as ih =>
    cases i with
    | zero => simp [listModify]
    | succ n => simpa [listModify] using ih n

theorem listModify_map {α β : Type} (l : List α) (i : Nat) (f : α → α) (g : α → β)
    (hfg : ∀ a, g (f a) = g a) : (listModify l i f).map g = l.map g := by
  induction l generalizing i with
  | nil => simp [listModify]
  | cons a as ih =>
    cases i with
    | zero => simp [listModify, hfg]
    | succ n => simpa [listModify] using ih n

/-- Applying one of the `Instance` field setters to the instance stored at
`(mesh m, index i)` of the registry.  In render.rs the setters are methods
of `Instance` alone (`&mut self`, lines 302-360), so the whole effect on
the `Render` state of calling a setter on an instance owned by a
`DrawCall` is the in-place update of that one instance — nothing else in
the state is touched. -/
def Render.apply_setter (r : Render) (m i : Nat) (f : Instance → Instance) : Render :=
  { r with draw_calls :=
      (listModify r.draw_calls m
        (fun dc => { dc with instances := listModify dc.instances i f })) }

/-- Scripted `set_z` on `(mesh, index)`: `Instance::set_z` applied to the
addressed instance. -/
def Render.set_z_at (r : Render) (m i : Nat) (v : Nat) : Render :=
  r.apply_setter m i fun s => s.set_z v

/-- Scripted `z` on `(mesh, index)`: `Instance::z` read from the addressed
instance (`none` when the pair is out of range). -/
def Render.z_at (r : Render) (m i : Nat) : Option Nat :=
  (r.draw_calls[m]?).bind fun dc => (dc.instances[i]?).map Instance.z

theorem z_at_set_z_at (r : Render) (m i : Nat) (v : Nat) (hv : v ≤ 255)
    (hm : m < r.draw_calls.length)
    (hi : i < (r.draw_calls.get ⟨m, hm⟩).instances.length) :
    (r.set_z_at m i v).z_at m i = some v := by
  have hi2 : i < r.draw_calls[m].instances.length := hi
  have hm' : r.draw_calls[m]? = some r.draw_calls[m] := List.getElem?_eq_getElem hm
  have hi' : r.draw_calls[m].instances[i]? = some r.draw_calls[m].instances[i] :=
    List.getElem?_eq_getElem hi2
  simp [Render.set_z_at, Render.apply_setter, Render.z_at,
    listModify_getElem?_self, hm', hi', Instance.z_set_z _ v hv]

/-- A one-mesh, one-instance registry used as concrete test state. -/
def testRender : Render :=
  { draw_calls :=
      [{ vertices := [], indices := [0, 1, 2], bindings := none,
         instances := [Instance.new 0 0], refresh_instances := false }],
    missing_bindings := true, camera_pan := (0, 0), camera_zoom := 1 }

/-- Counterexample to C5 as stated: on the valid pair `(mesh 0, index 0)`
of `testRender`, `set_z` with input `0` followed by `z` returns `0`, not
`255` as the claim asserts.  In the source, `set_z(0)` stores
`(255 - 0)/255 = 1` into `position[2]` and `z()` computes
`255 - (1 * 255) as u8 = 0`: `z` undoes the whole depth transform, so the
round trip is the identity, not the flip the claim describes. -/
theorem set_z_zero_then_z_is_zero :
    ¬ (testRender.set_z_at 0 0 0).z_at 0 0 = some 255 := by
  have h := z_at_set_z_at testRender 0 0 0 (by omega) (by decide) (by decide)
  simp [h]

/-- C5 amended: on any valid `(mesh, index)` pair, `set_z` with input `0`
followed by `z` returns `0`, and `set_z` with input `255` followed by `z`
returns `255` — the boundary values round-trip to themselves, because `z`
inverts the depth transform completely (internally, input `0` is stored as
`position[2] = 1` and input `255` as `position[2] = 0`). -/
theorem set_z_boundary_roundtrip (r : Render) (m i : Nat)
    (hm : m < r.draw_calls.length)
    (hi : i < (r.draw_calls.get ⟨m, hm⟩).instances.length) :
    (r.set_z_at m i 0).z_at m i = some 0 ∧ (r.set_z_at m i 255).z_at m i = some 255 :=
  ⟨z_at_set_z_at r m i 0 (by omega) hm hi, z_at_set_z_at r m i 255 (by omega) hm hi⟩

/-- Witness for the amended C5, at mesh `0`, index `0` of `testRender`. -/
theorem set_z_boundary_roundtrip_at_test :
    (testRender.set_z_at 0 0 0).z_at 0 0 = some 0 ∧
      (testRender.set_z_at 0 0 255).z_at 0 0 = some 255 :=
  set_z_boundary_roundtrip testRender 0 0 (by decide) (by decide)

/-- C1, evidence for the code bug: no `Instance` field setter can mark the
owning `DrawCall` dirty.  The first conjunct: applying any per-instance
update (in particular each of `set_x`, `set_y`, `set_z`, `set_rotation`,
`set_scale`, `set_color_multiplier`) through `(mesh, index)` leaves every
`refresh_instances` flag in the registry exactly as it was — the setters
mutate only the `Instance` itself, and no code path in the repository ever
sets `refresh_instances` to `true`.  The second conjunct evaluates all six
setters at the failing input (mesh `0`, index `0` of `testRender`): the
flag that the claim says must be `true` is still `false`. -/
theorem setters_never_mark_refresh_instances :
    (∀ (r : Render) (m i : Nat) (f : Instance → Instance),
        (r.apply_setter m i f).draw_calls.map DrawCall.refresh_instances =
          r.draw_calls.map DrawCall.refresh_instances) ∧
    (testRender.apply_setter 0 0 (fun s => s.set_x 5)).draw_calls.map
        DrawCall.refresh_instances = [false] ∧
    (testRender.apply_setter 0 0 (fun s => s.set_y 5)).draw_calls.map
        DrawCall.refresh_instances = [false] ∧
    (testRender.apply_setter 0 0 (fun s => s.set_z 5)).draw_calls.map
        DrawCall.refresh_instances = [false] ∧
    (testRender.apply_setter 0 0 (fun s => s.set_rotation 5)).draw_calls.map
        DrawCall.refresh_instances = [false] ∧
    (testRender.apply_setter 0 0 (fun s => s.set_scale 5)).draw_calls.map
        DrawCall.refresh_instances = [false] ∧
    (testRender.apply_setter 0 0 (fun s => s.set_color_multiplier 5 5 5)).draw_calls.map
        DrawCall.refresh_instances = [false] := by
  refine ⟨fun r m i f => ?_, rfl, rfl, rfl, rfl, rfl, rfl⟩
  exact listModify_map r.draw_calls m _ DrawCall.refresh_instances (fun dc => rfl)

/-- The `DrawCall` that both upload functions push: the given geometry with
empty instance list, absent bindings and clear dirty flag. -/
def freshDrawCall (g : List Vertex × List Nat) : DrawCall :=
  { vertices := g.1, indices := g.2, bindings := none, instances := [],
    refresh_instances := false }

/-- Counterexample to C2 as stated: at the concrete failing input
(tessellation fails on the given path), `upload_path` does not report the
failure to its caller — the `.unwrap()` on the tessellation result panics,
modelled by `fatalPanic`, which is distinct from every `ok` return.  The
source's return type (`Mesh`, not `Result<Mesh>`) has no error path at
all. -/
theorem upload_path_panics_at_failed_tessellation :
    Render.new.upload_path none = UploadPathResult.fatalPanic ∧
      UploadPathResult.fatalPanic ≠ UploadPathResult.ok Render.new ⟨0⟩ := by
  exact ⟨rfl, by decide⟩

/-- C2 amended: on every input whose tessellation fails, `upload_path`
panics (aborting that call via the `.unwrap()` at the tessellation site)
before any registry mutation — so no corrupted registry state is ever
produced, but the failure is a panic, not an error returned to the caller;
on every input whose tessellation succeeds it appends one fresh `DrawCall`
and returns a usable handle (the new entry's index, in bounds for the new
registry). -/
theorem upload_path_fatal_on_failure_usable_on_success (r : Render)
    (g : List Vertex × List Nat) :
    r.upload_path none = UploadPathResult.fatalPanic ∧
    r.upload_path (some g) =
      UploadPathResult.ok
        { r with
            draw_calls := r.draw_calls ++ [freshDrawCall g]
            missing_bindings := true }
        ⟨r.draw_calls.length⟩ ∧
    r.draw_calls.length < (r.draw_calls ++ [freshDrawCall g]).length := by
  refine ⟨rfl, ?_, by simp⟩
  simp [Render.upload_path, freshDrawCall]

/-- C6: every successful `upload_path` or `upload_buffers` call appends
exactly one `DrawCall` with empty instance list, absent bindings and clear
dirty flag, sets the registry-wide `missing_bindings` flag, and returns the
previous registry length as the `Mesh` handle.  Since `Render.new` starts
with zero entries, each upload grows the registry by exactly one, and no
operation of the model removes entries, the handles returned across any
sequence of uploads are `0, 1, 2, …` — dense, monotonically increasing,
never reused. -/
theorem upload_appends_one_fresh_entry_and_returns_dense_handle (r : Render)
    (tess g : List Vertex × List Nat) :
    Render.new.draw_calls.length = 0 ∧
    freshDrawCall tess =
      { vertices := tess.1, indices := tess.2, bindings := none, instances := [],
        refresh_instances := false } ∧
    r.upload_path (some tess) =
      UploadPathResult.ok
        { r with
            draw_calls := r.draw_calls ++ [freshDrawCall tess]
            missing_bindings := true }
        ⟨r.draw_calls.length⟩ ∧
    r.upload_buffers g =
      Except.ok
        ({ r with
             draw_calls := r.draw_calls ++ [freshDrawCall g]
             missing_bindings := true },
         ⟨r.draw_calls.length⟩) ∧
    (r.draw_calls ++ [freshDrawCall g]).length = r.draw_calls.length + 1 := by
  refine ⟨rfl, rfl, ?_, ?_, by simp⟩
  · simp [Render.upload_path, freshDrawCall]
  · simp [Render.upload_buffers, freshDrawCall]

/-- Counterexample to C9 as stated: `upload_buffers` accepts pre-tessellated
geometry whose index value `0` is out of bounds for its empty vertex list —
the call returns `Ok` with a fresh handle instead of rejecting the input,
because the source performs no index-bound check (or any other check). -/
theorem upload_buffers_accepts_out_of_bounds_index :
    Render.new.upload_buffers ([], [0]) =
      Except.ok
        ({ draw_calls := [freshDrawCall ([], [0])]
           missing_bindings := true
           camera_pan := (0, 0)
           camera_zoom := 1 },
         ⟨0⟩) := rfl

/-- C9 amended: `upload_buffers` performs no validation at all — for every
input geometry, including geometry whose index values are not below the
vertex count, it succeeds and returns the new entry's index as a `Mesh`
handle. -/
theorem upload_buffers_never_rejects (r : Render) (g : List Vertex × List Nat) :
    r.upload_buffers g =
      Except.ok
        ({ r with
             draw_calls := r.draw_calls ++ [freshDrawCall g]
             missing_bindings := true },
         ⟨r.draw_calls.length⟩) := by
  simp [Render.upload_buffers, freshDrawCall]

/-- One GPU draw command as issued by
`ctx.draw(0, dc.indices.len() as i32, dc.instances.len() as i32)` inside
`Render::render`, tagged with the registry index of the draw call whose
bindings the preceding `apply_bindings` bound. -/
structure DrawCmd where
  mesh : Nat
  base_elements : Nat
  num_instances : Nat
deriving DecidableEq

/-- Body of the draw loop of `Render::render` for the entry at registry
index `i`: a mesh with no instances is skipped (`continue`); otherwise the
bindings are unwrapped (`none` models the panic of
`dc.bindings.as_ref().unwrap()`), and if `refresh_instances` is set the
instance buffer is re-uploaded with the full instance array and the flag
cleared; finally one instanced draw command is issued. -/
def drawCallStep (i : Nat) (dc : DrawCall) : Option (DrawCall × List DrawCmd) :=
  if dc.instances.isEmpty then
    some (dc, [])
  else
    match dc.bindings with
    | none => none
    | some b =>
      let dc2 :=
        if dc.refresh_instances then
          { dc with
              bindings := some ({ b with instance_data := dc.instances })
              refresh_instances := false }
        else dc
      some (dc2, [{ mesh := i, base_elements := dc.indices.length,
                    num_instances := dc.instances.length }])

/-- The draw loop of `Render::render` over the registry tail whose head
sits at registry index `i`; `none` propagates the unwrap panic. -/
def drawLoop (i : Nat) : List DrawCall → Option (List DrawCall × List DrawCmd)
  | [] => some ([], [])
  | dc :: rest =>
    match drawCallStep i dc with
    | none => none
    | some q =>
      match drawLoop (i + 1) rest with
      | none => none
      | some p => some (q.1 :: p.1, q.2 ++ p.2)

/-- The per-entry action of the binding-creation phase: create bindings
when they are missing. -/
def ensureBindings (dc : DrawCall) : DrawCall :=
  if dc.bindings.isNone then dc.create_bindings else dc

/-- The binding-creation phase at the top of `Render::render`: when the
registry-wide `missing_bindings` flag is set, every entry lacking bindings
gets them created, and the flag is cleared. -/
def bindPhase (r : Render) : Render :=
  if r.missing_bindings then
    { r with
        draw_calls := r.draw_calls.map ensureBindings
        missing_bindings := false }
  else r

/-- Frame render `Render::render`: the binding-creation phase followed by the draw loop
over all entries in registry order.  `none` models the panic of the
bindings unwrap; otherwise the new registry state and the ordered list of
issued draw commands are returned (pass begin/end, screen clear, pipeline,
scissor and uniform binding, and the frame commit carry no
registry-observable state). -/
def Render.render (r : Render) : Option (Render × List DrawCmd) :=
  let r1 := bindPhase r
  (drawLoop 0 r1.draw_calls).map (fun p => ({ r1 with draw_calls := p.1 }, p.2))

/-- Pure description of what one successful draw-loop iteration does to its
entry. -/
def drawCallAfter (dc : DrawCall) : DrawCall :=
  if dc.instances.isEmpty then dc
  else if dc.refresh_instances then
    { dc with
        bindings := dc.bindings.map (fun b => { b with instance_data := dc.instances })
        refresh_instances := false }
  else dc

/-- Pure description of the draw commands the loop issues from registry
index `i` on. -/
def drawCmdsFrom (i : Nat) : List DrawCall → List DrawCmd
  | [] => []
  | dc :: rest =>
    if dc.instances.isEmpty then drawCmdsFrom (i + 1) rest
    else { mesh := i, base_elements := dc.indices.length,
           num_instances := dc.instances.length } :: drawCmdsFrom (i + 1) rest

/-- The registry indices of the meshes holding at least one instance, in
registry order, counting from `i`. -/
def nonEmptyIndices (i : Nat) : List DrawCall → List Nat
  | [] => []
  | dc :: rest =>
    if dc.instances.isEmpty then nonEmptyIndices (i + 1) rest
    else i :: nonEmptyIndices (i + 1) rest

theorem drawCallStep_some (i : Nat) (dc : DrawCall) (q : DrawCall × List DrawCmd)
    (h : drawCallStep i dc = some q) :
    q.1 = drawCallAfter dc ∧
    q.2 = (if dc.instances.isEmpty then ([] : List DrawCmd) else
      [{ mesh := i, base_elements := dc.indices.length,
         num_instances := dc.instances.length }]) := by
  by_cases hE : dc.instances.isEmpty
  · simp only [drawCallStep, hE, if_true, Option.some_inj] at h
    simp [← h, drawCallAfter, hE]
  · simp only [drawCallStep, hE, if_false, Bool.false_eq_true] at h
    cases hb : dc.bindings with
    | none => rw [hb] at h; simp at h
    | some b =>
      rw [hb] at h
      simp only [Option.some_inj] at h
      by_cases hR : dc.refresh_instances <;>
        simp [← h, drawCallAfter, hE, hb, hR]

theorem drawCallStep_isSome (i : Nat) (dc : DrawCall)
    (hb : dc.instances.isEmpty = false → dc.bindings.isSome = true) :
    drawCallStep i dc ≠ none := by
  by_cases hE : dc.instances.isEmpty
  · simp [drawCallStep, hE]
  · obtain ⟨b, hb'⟩ := Option.isSome_iff_exists.mp (hb (by simpa using hE))
    simp [drawCallStep, hE, hb']

theorem drawLoop_some_eq (dcs : List DrawCall) (i : Nat)
    (p : List DrawCall × List DrawCmd) (h : drawLoop i dcs = some p) :
    p = (dcs.map drawCallAfter, drawCmdsFrom i dcs) := by
  induction dcs generalizing i p with
  | nil =>
    simp only [drawLoop, Option.some_inj] at h
    simp [← h, drawCmdsFrom]
  | cons dc rest ih =>
    rw [drawLoop] at h
    cases hs : drawCallStep i dc with
    | none => rw [hs] at h; simp at h
    | some q =>
      rw [hs] at h
      cases hr : drawLoop (i + 1) rest with
      | none => rw [hr] at h; simp at h
      | some p2 =>
        rw [hr] at h
        simp only [Option.some_inj] at h
        obtain ⟨h1, h2⟩ := drawCallStep_some i dc q hs
        have h3 := ih (i + 1) p2 hr
        by_cases hE : dc.instances.isEmpty <;>
          simp [← h, h1, h2, h3, hE, drawCmdsFrom]

theorem drawLoop_isSome (dcs : List DrawCall) (i : Nat)
    (hb : ∀ dc ∈ dcs, dc.instances.isEmpty = false → dc.bindings.isSome = true) :
    drawLoop i dcs = some (dcs.map drawCallAfter, drawCmdsFrom i dcs) := by
  induction dcs generalizing i with
  | nil => simp [drawLoop, drawCmdsFrom]
  | cons dc rest ih =>
    rw [drawLoop]
    cases hs : drawCallStep i dc with
    | none => exact absurd hs (drawCallStep_isSome i dc (hb dc (List.mem_cons_self dc rest)))
    | some q =>
      rw [ih (i + 1) (fun d hd => hb d (List.mem_cons_of_mem dc hd))]
      obtain ⟨h1, h2⟩ := drawCallStep_some i dc q hs
      by_cases hE : dc.instances.isEmpty <;> simp [h1, h2, hE, drawCmdsFrom]

theorem drawCmdsFrom_map_mesh (dcs : List DrawCall) (i : Nat) :
    (drawCmdsFrom i dcs).map DrawCmd.mesh = nonEmptyIndices i dcs := by
  induction dcs generalizing i with
  | nil => simp [drawCmdsFrom, nonEmptyIndices]
  | cons dc rest ih =>
    by_cases hE : dc.instances.isEmpty <;> simp [drawCmdsFrom, nonEmptyIndices, hE, ih]

theorem drawCallAfter_instances (dc : DrawCall) :
    (drawCallAfter dc).instances = dc.instances := by
  by_cases hE : dc.instances.isEmpty <;> by_cases hR : dc.refresh_instances <;>
    simp [drawCallAfter, hE, hR]

theorem ensureBindings_instances (dc : DrawCall) :
    (ensureBindings dc).instances = dc.instances := by
  by_cases hB : dc.bindings.isNone <;> simp [ensureBindings, DrawCall.create_bindings, hB]

theorem ensureBindings_isSome (dc : DrawCall) :
    (ensureBindings dc).bindings.isSome = true := by
  cases hB : dc.bindings <;> simp [ensureBindings, DrawCall.create_bindings, hB]

theorem nonEmptyIndices_congr (dcs : List DrawCall) (i : Nat)
    (f : DrawCall → DrawCall) (hf : ∀ dc, (f dc).instances = dc.instances) :
    nonEmptyIndices i (dcs.map f) = nonEmptyIndices i dcs := by
  induction dcs generalizing i with
  | nil => simp [nonEmptyIndices]
  | cons dc rest ih =>
    by_cases hE : dc.instances.isEmpty <;>
      simp [nonEmptyIndices, hf, hE, ih]

theorem bindPhase_missing_bindings (r : Render) :
    (bindPhase r).missing_bindings = false := by
  cases hm : r.missing_bindings <;> simp [bindPhase, hm]

theorem bindPhase_nonEmptyIndices (r : Render) :
    nonEmptyIndices 0 (bindPhase r).draw_calls = nonEmptyIndices 0 r.draw_calls := by
  cases hm : r.missing_bindings <;>
    simp [bindPhase, hm, nonEmptyIndices_congr _ _ ensureBindings ensureBindings_instances]

theorem bindPhase_instances_map (r : Render) :
    (bindPhase r).draw_calls.map DrawCall.instances =
      r.draw_calls.map DrawCall.instances := by
  cases hm : r.missing_bindings with
  | false => simp [bindPhase, hm]
  | true =>
    simp only [bindPhase, hm, if_true, List.map_map]
    exact List.map_congr_left (fun dc _ => ensureBindings_instances dc)

theorem drawCallAfter_empty (dc : DrawCall) (hE : dc.instances.isEmpty = true) :
    drawCallAfter dc = dc := by
  simp [drawCallAfter, hE]

theorem drawCallAfter_refresh (dc : DrawCall) :
    (drawCallAfter dc).refresh_instances =
      (if dc.instances.isEmpty then dc.refresh_instances else false) := by
  by_cases hE : dc.instances.isEmpty <;> by_cases hR : dc.refresh_instances <;>
    simp [drawCallAfter, hE, hR]

theorem drawCallAfter_isSome (dc : DrawCall) :
    (drawCallAfter dc).bindings.isSome = dc.bindings.isSome := by
  by_cases hE : dc.instances.isEmpty <;> by_cases hR : dc.refresh_instances <;>
    cases hB : dc.bindings <;> simp [drawCallAfter, hE, hR, hB]

theorem drawLoop_some_bound (dcs : List DrawCall) (i : Nat)
    (p : List DrawCall × List DrawCmd) (h : drawLoop i dcs = some p) :
    ∀ dc ∈ dcs, dc.instances.isEmpty = false → dc.bindings.isSome = true := by
  induction dcs generalizing i p with
  | nil => simp
  | cons dc rest ih =>
    rw [drawLoop] at h
    cases hs : drawCallStep i dc with
    | none => rw [hs] at h; simp at h
    | some q =>
      rw [hs] at h
      cases hr : drawLoop (i + 1) rest with
      | none => rw [hr] at h; simp at h
      | some p2 =>
        intro d hd hE
        rcases List.mem_cons.mp hd with rfl | hd'
        · cases hB : d.bindings with
          | none => simp [drawCallStep, hE, hB] at hs
          | some b => simp [hB]
        · exact ih (i + 1) p2 hr d hd' hE

/-- Empty bindings of an empty mesh (the result of `create_bindings` on
empty geometry). -/
def emptyBindings : Bindings :=
  { vertex_buffer := [], index_buffer := [], instance_buffer_size := MAX_MESH_INSTANCES,
    instance_data := [] }

/-- Bindings of a one-triangle mesh. -/
def triBindings : Bindings :=
  { vertex_buffer := [], index_buffer := [0, 1, 2], instance_buffer_size := MAX_MESH_INSTANCES,
    instance_data := [] }

/-- Two-mesh test registry: mesh `0` with zero instances, mesh `1` with one
instance; all bindings present, no bindings pending. -/
def twoMeshRender : Render :=
  ⟨[⟨[], [], some emptyBindings, [], false⟩,
    ⟨[], [0, 1, 2], some triBindings, [Instance.new 1 2], false⟩],
   false, (0, 0), 1⟩

/-- C7: in every successful call to `render`, the issued draw commands are
exactly one per mesh holding at least one instance — in registry (upload)
order — and a mesh with zero instances triggers no draw command and no
buffer write: the draw loop returns such an entry completely untouched.
(The separate lazy binding-allocation phase at the top of `render` is
governed solely by the registry-wide `missing_bindings` flag, not by any
mesh's instance count, and writes no instance data.) -/
theorem render_draws_exactly_nonempty_in_order (r r' : Render) (cmds : List DrawCmd)
    (h : r.render = some (r', cmds)) :
    cmds.map DrawCmd.mesh = nonEmptyIndices 0 r.draw_calls ∧
    (∀ (j : Nat) (dc : DrawCall), (bindPhase r).draw_calls[j]? = some dc →
      dc.instances.isEmpty = true → r'.draw_calls[j]? = some dc) := by
  simp only [Render.render] at h
  cases hd : drawLoop 0 (bindPhase r).draw_calls with
  | none => rw [hd] at h; simp at h
  | some p =>
    rw [hd] at h
    simp only [Option.map_some', Option.some_inj] at h
    have hp := drawLoop_some_eq _ 0 p hd
    injection h with h1 h2
    constructor
    · rw [← h2, hp, drawCmdsFrom_map_mesh, bindPhase_nonEmptyIndices]
    · intro j dc hj hE
      have : r'.draw_calls = ((bindPhase r).draw_calls).map drawCallAfter := by
        rw [← h1, hp]
      rw [this, List.getElem?_map, hj, Option.map_some', drawCallAfter_empty dc hE]

/-- Witness for C7: on `twoMeshRender`, the single issued draw command
targets mesh `1`, the unique mesh with a nonzero instance count. -/
theorem render_draws_exactly_nonempty_in_order_on_twoMesh :
    [DrawCmd.mk 1 3 1].map DrawCmd.mesh = nonEmptyIndices 0 twoMeshRender.draw_calls :=
  (render_draws_exactly_nonempty_in_order twoMeshRender twoMeshRender
    [⟨1, 3, 1⟩] (by rfl)).1

/-- One mesh with the dirty flag set but zero instances (bindings present,
no bindings pending). -/
def dirtyEmptyRender : Render :=
  ⟨[⟨[], [], some emptyBindings, [], true⟩], false, (0, 0), 1⟩

/-- Counterexample to C8 as stated: rendering `dirtyEmptyRender` — whose
single mesh has `refresh_instances = true` but zero instances — completes
and returns the state entirely unchanged: the dirty flag is still `true`
after `render` returns, because the draw loop skips zero-instance meshes
before it ever looks at the dirty flag. -/
theorem render_leaves_dirty_flag_of_empty_mesh :
    dirtyEmptyRender.render = some (dirtyEmptyRender, []) ∧
      dirtyEmptyRender.draw_calls.map DrawCall.refresh_instances = [true] := ⟨rfl, rfl⟩

/-- C8 amended: in every successful `render`, every mesh with at least one
instance and a set dirty flag has its full instance array uploaded once
into its streaming buffer and its flag cleared; a mesh with zero instances
is skipped, keeping its dirty flag as it was; and no instance's field
values (x, y, z, rotation, scale, colour multiplier, alpha all live in the
`instances` lists) are changed by rendering. -/
theorem render_clears_dirty_only_for_nonempty (r r' : Render) (cmds : List DrawCmd)
    (h : r.render = some (r', cmds)) :
    r'.draw_calls.map DrawCall.instances = r.draw_calls.map DrawCall.instances ∧
    r'.draw_calls.map DrawCall.refresh_instances =
      (bindPhase r).draw_calls.map
        (fun dc => if dc.instances.isEmpty then dc.refresh_instances else false) ∧
    (∀ (j : Nat) (dc : DrawCall), (bindPhase r).draw_calls[j]? = some dc →
      dc.instances.isEmpty = false → dc.refresh_instances = true →
      ∃ b, dc.bindings = some b ∧
        r'.draw_calls[j]? = some
          { dc with
              bindings := some ({ b with instance_data := dc.instances })
              refresh_instances := false }) := by
  simp only [Render.render] at h
  cases hd : drawLoop 0 (bindPhase r).draw_calls with
  | none => rw [hd] at h; simp at h
  | some p =>
    rw [hd] at h
    simp only [Option.map_some', Option.some_inj] at h
    have hp := drawLoop_some_eq _ 0 p hd
    injection h with h1 h2
    have hdc : r'.draw_calls = ((bindPhase r).draw_calls).map drawCallAfter := by
      rw [← h1, hp]
    refine ⟨?_, ?_, ?_⟩
    · rw [hdc, List.map_map, ← bindPhase_instances_map]
      exact List.map_congr_left (fun dc _ => drawCallAfter_instances dc)
    · rw [hdc, List.map_map]
      exact List.map_congr_left (fun dc _ => drawCallAfter_refresh dc)
    · intro j dc hj hE hR
      have hmem : dc ∈ (bindPhase r).draw_calls := List.getElem?_mem hj
      have hb : dc.bindings.isSome = true :=
        drawLoop_some_bound _ 0 p hd dc hmem hE
      obtain ⟨b, hbeq⟩ := Option.isSome_iff_exists.mp hb
      refine ⟨b, hbeq, ?_⟩
      rw [hdc, List.getElem?_map, hj, Option.map_some']
      simp [drawCallAfter, hE, hR, hbeq]

/-- One mesh with one instance and the dirty flag set. -/
def dirtyOneRender : Render :=
  ⟨[⟨[], [0, 1, 2], some triBindings, [Instance.new 3 4], true⟩], false, (0, 0), 1⟩

/-- The state `dirtyOneRender` reaches after one `render`: instance array
uploaded into the streaming buffer, flag cleared, instances untouched. -/
def dirtyOneRendered : Render :=
  ⟨[⟨[], [0, 1, 2],
     some ⟨[], [0, 1, 2], MAX_MESH_INSTANCES, [Instance.new 3 4]⟩,
     [Instance.new 3 4], false⟩], false, (0, 0), 1⟩

/-- Witness for the amended C8 on the concrete state `dirtyOneRender`. -/
theorem render_clears_dirty_on_dirtyOneRender :
    dirtyOneRendered.draw_calls.map DrawCall.instances =
        dirtyOneRender.draw_calls.map DrawCall.instances ∧
    dirtyOneRendered.draw_calls.map DrawCall.refresh_instances =
      (bindPhase dirtyOneRender).draw_calls.map
        (fun dc => if dc.instances.isEmpty then dc.refresh_instances else false) :=
  ⟨(render_clears_dirty_only_for_nonempty dirtyOneRender dirtyOneRendered
      [⟨0, 3, 1⟩] (by rfl)).1,
   (render_clears_dirty_only_for_nonempty dirtyOneRender dirtyOneRendered
      [⟨0, 3, 1⟩] (by rfl)).2.1⟩

/-- The implicit invariant of C10: whenever the registry-wide
`missing_bindings` flag is clear, every registry entry has bindings
present. -/
def RenderInv (r : Render) : Prop :=
  r.missing_bindings = false → ∀ dc ∈ r.draw_calls, dc.bindings.isSome = true

theorem bindPhase_all_bound (r : Render) (hinv : RenderInv r) :
    ∀ dc ∈ (bindPhase r).draw_calls, dc.bindings.isSome = true := by
  intro dc hdc
  cases hm : r.missing_bindings with
  | true =>
    rw [bindPhase] at hdc
    simp only [hm, if_true, List.mem_map] at hdc
    obtain ⟨dc0, _, rfl⟩ := hdc
    exact ensureBindings_isSome dc0
  | false =>
    rw [bindPhase] at hdc
    simp only [hm, Bool.false_eq_true, if_false] at hdc
    exact hinv hm dc hdc

/-- C10: the invariant `RenderInv` — a clear `missing_bindings` flag means
every entry has bindings — holds of `Render.new`, is preserved by
successful `upload_path` and `upload_buffers` calls (each raises the
flag) and by `render` (which clears the flag only after creating bindings
for every entry lacking them), and under it the unconditional
`bindings.as_ref().unwrap()` inside the draw loop of `render` can never
panic: `render` never returns the panic outcome. -/
theorem missing_bindings_invariant :
    RenderInv Render.new ∧
    (∀ (r : Render) (tess : List Vertex × List Nat) (r' : Render) (m : Mesh),
        r.upload_path (some tess) = UploadPathResult.ok r' m → RenderInv r') ∧
    (∀ (r : Render) (g : List Vertex × List Nat) (r' : Render) (m : Mesh),
        r.upload_buffers g = Except.ok (r', m) → RenderInv r') ∧
    (∀ r : Render, RenderInv r → r.render ≠ none ∧
        ∀ r' cmds, r.render = some (r', cmds) → RenderInv r') := by
  refine ⟨?_, ?_, ?_, ?_⟩
  · intro _ dc hdc
    exact absurd hdc (List.not_mem_nil dc)
  · intro r tess r' m h
    simp only [Render.upload_path, UploadPathResult.ok.injEq] at h
    intro hfalse
    rw [← h.1] at hfalse
    simp at hfalse
  · intro r g r' m h
    simp only [Render.upload_buffers, Except.ok.injEq, Prod.mk.injEq] at h
    intro hfalse
    rw [← h.1] at hfalse
    simp at hfalse
  · intro r hinv
    have hall := bindPhase_all_bound r hinv
    have hloop := drawLoop_isSome (bindPhase r).draw_calls 0
      (fun dc hdc _ => hall dc hdc)
    constructor
    · intro hnone
      rw [Render.render] at hnone
      simp only [hloop, Option.map_some'] at hnone
      exact Option.some_ne_none _ hnone
    · intro r' cmds h _
      intro dc hdc
      have : r'.draw_calls = ((bindPhase r).draw_calls).map drawCallAfter := by
        rw [Render.render] at h
        rw [hloop] at h
        simp only [Option.map_some', Option.some_inj] at h
        injection h with h1 h2
        rw [← h1]
      rw [this] at hdc
      obtain ⟨dc0, hdc0, rfl⟩ := List.mem_map.mp hdc
      rw [drawCallAfter_isSome]
      exact hall dc0 hdc0

/-- Witness for C10: `twoMeshRender` satisfies the invariant, and `render`
on it does not panic. -/
theorem missing_bindings_invariant_on_twoMesh : twoMeshRender.render ≠ none :=
  (missing_bindings_invariant.2.2.2 twoMeshRender
    (fun _ => by decide)).1

/-- One mesh with bindings present, no bindings pending, and `n` default
instances awaiting upload (`refresh_instances = true`). -/
def singleMeshRender (n : Nat) : Render :=
  ⟨[⟨[], [], some emptyBindings, List.replicate n (Instance.new 0 0), true⟩],
   false, (0, 0), 1⟩

/-- The state `singleMeshRender n` reaches after one `render`: the full
instance array uploaded into the streaming buffer, dirty flag cleared. -/
def singleMeshRendered (n : Nat) : Render :=
  ⟨[⟨[], [],
     some ⟨[], [], MAX_MESH_INSTANCES, List.replicate n (Instance.new 0 0)⟩,
     List.replicate n (Instance.new 0 0), false⟩],
   false, (0, 0), 1⟩

theorem render_singleMeshRender (n : Nat) :
    (singleMeshRender (n + 1)).render =
      some (singleMeshRendered (n + 1),
        [{ mesh := 0, base_elements := 0, num_instances := n + 1 }]) := by
  have hne : (List.replicate (n + 1) (Instance.new 0 0)).isEmpty = false := by
    simp [List.replicate_succ]
  simp [Render.render, bindPhase, singleMeshRender, singleMeshRendered,
    drawLoop, drawCallStep, hne, emptyBindings]

/-- Counterexample to C3 as stated: rendering a mesh whose instance list
holds `MAX_MESH_INSTANCES + 1` instances — strictly more than the fixed
per-mesh capacity — completes normally: the render returns its ordinary
result (not the panic outcome, and there is no error outcome in the
source, whose `render` returns unit), issues the draw command for all
`MAX_MESH_INSTANCES + 1` instances, and uploads the full array.  No
capacity-exceeded error is reported to the caller; the source contains no
capacity comparison at all. -/
theorem render_over_capacity_reports_no_error :
    (singleMeshRender (MAX_MESH_INSTANCES + 1)).render =
      some (singleMeshRendered (MAX_MESH_INSTANCES + 1),
        [{ mesh := 0, base_elements := 0, num_instances := MAX_MESH_INSTANCES + 1 }]) ∧
    MAX_MESH_INSTANCES < MAX_MESH_INSTANCES + 1 :=
  ⟨render_singleMeshRender MAX_MESH_INSTANCES, Nat.lt_succ_self _⟩

/-- C3 amended: `render` performs no capacity check whatsoever: for every
instance count `n + 1` — the family covers every count, in particular
`MAX_MESH_INSTANCES + 1` — the render completes normally, issues the draw
command for the full count, and passes the entire instance array to the
streaming-buffer update without truncation and without reporting any
error; enforcement of the fixed buffer size is left to the external GPU
buffer layer. -/
theorem render_has_no_capacity_check (n : Nat) :
    (singleMeshRender (n + 1)).render =
      some (singleMeshRendered (n + 1),
        [{ mesh := 0, base_elements := 0, num_instances := n + 1 }]) ∧
    (singleMeshRendered (n + 1)).draw_calls.map
        (fun dc => dc.bindings.map Bindings.instance_data) =
      [some (List.replicate (n + 1) (Instance.new 0 0))] := by
  refine ⟨render_singleMeshRender n, ?_⟩
  simp [singleMeshRendered]

end Clogs
